import Mathlib

/-!
Verification development for the teleoperation example
`src/examples/teleoperation_with_joint_limits.py`.

The script is embedded shallowly: the pure decision logic (role
classification, convergence check, loop pacing) becomes Lean functions,
and the effectful `main` becomes a function `runMain` over an explicit
environment `Env` recording the outcome of every SDK call the script
makes (port discovery, handle opening, voltage reads, calibration,
position reads/writes, clock samples, and teleoperation-loop events).
Voltages and times are modelled as rationals; joint positions as
association lists from servo id to integer encoder units, mirroring the
Python dict. Printing is modelled by an `OutputLine` event list.
-/

/-- Configuration constant `SERVO_IDS` (line 14 of the script). -/
def SERVO_IDS : List Nat := [1, 2, 3, 4, 5, 6, 7]

/-- Configuration constant `VOLTAGE_THRESHOLD = 9.0` volts (line 17). -/
def VOLTAGE_THRESHOLD : ℚ := 9

/-- Configuration constant `FREQUENCY = 200` Hz (line 18). -/
def FREQUENCY : ℚ := 200

/-- `loop_time = 1.0 / FREQUENCY` (line 74): the nominal loop period. -/
def loop_time : ℚ := 1 / FREQUENCY

/-- The convergence tolerance, 20 encoder units (line 69). -/
def TOLERANCE : Int := 20

/-- The synchronization timeout, 5 seconds (line 61). -/
def SYNC_TIMEOUT : ℚ := 5

/-- Role of a handle after voltage classification. -/
inductive Role where
  | Leader
  | Follower
deriving DecidableEq, Repr

/-- One line printed to the operator console. Formatting is abstracted
to constructors carrying the data the script interpolates. -/
inductive OutputLine where
  | portCountError (found : Nat)
  | availablePorts (ports : List String)
  | findPortsError (msg : String)
  | foundPorts (p0 p1 : String)
  | roleLine (port : String) (role : Role) (voltage : ℚ)
  | movingMsg
  | syncTimeoutWarning
  | syncDone
  | teleopStarted
  | stoppedMsg
deriving DecidableEq, Repr

/-- Lines 44-51: classify the two handles from the two sampled voltages.
Returns the `(role of handle 1, role of handle 2)` pair together with the
two printed classification lines. The branch condition is
`voltage1 < VOLTAGE_THRESHOLD`, exactly as in the source. -/
def classifyAndReport (p0 p1 : String) (v1 v2 : ℚ) :
    (Role × Role) × List OutputLine :=
  if v1 < VOLTAGE_THRESHOLD then
    ((Role.Leader, Role.Follower),
      [OutputLine.roleLine p0 Role.Leader v1,
       OutputLine.roleLine p1 Role.Follower v2])
  else
    ((Role.Follower, Role.Leader),
      [OutputLine.roleLine p0 Role.Follower v1,
       OutputLine.roleLine p1 Role.Leader v2])

/-- A joint-position reading: the Python dict from servo id to encoder
position, as an association list (dict keys are unique in practice; the
functions below iterate entries exactly as the script iterates keys). -/
abbrev JointPositions := List (Nat × Int)

/-- Python `d[id]` on a `JointPositions` dict: `some` position, or
`none` standing for a raised `KeyError`. -/
def lookupPos : JointPositions → Nat → Option Int
  | [], _ => none
  | (k, v) :: rest, id => if k = id then some v else lookupPos rest id

/-- Line 68: `[abs(follower_curr_pos[m] - positions[m]) for m in
follower_curr_pos.keys()]`. `none` models the `KeyError` raised when a
follower-reported id is absent from the leader's reading. -/
def computeDiffs (follower target : JointPositions) : Option (List Int) :=
  match follower with
  | [] => some []
  | (id, p) :: rest =>
    match lookupPos target id with
    | none => none
    | some t =>
      match computeDiffs rest target with
      | none => none
      | some ds => some (|p - t| :: ds)

/-- Lines 68-69: the convergence test `not any(diff > 20 for diff in
diffs)`. `none` models a `KeyError` during the diff computation. -/
def convergedCheck (follower target : JointPositions) : Option Bool :=
  match computeDiffs follower target with
  | none => none
  | some ds => some (!ds.any (fun d => decide (TOLERANCE < d)))

/-- Result of the synchronization polling loop (lines 62-71). -/
inductive SyncResult where
  | timedOut
  | synchronized
  | sdkError (msg : String)
  | lookupError
  | pollsExhausted
deriving DecidableEq, Repr

/-- Lines 62-71: poll until the follower converges or the 5-second
timeout elapses. Each poll observation is the `time.time()` value at the
loop head paired with the result of `follower.read_positions()`.
`pollsExhausted` is a model artifact for running out of observations. -/
def runSync (target : JointPositions) (startTime : ℚ) :
    List (ℚ × Except String JointPositions) → SyncResult
  | [] => SyncResult.pollsExhausted
  | (t, r) :: rest =>
    if SYNC_TIMEOUT < t - startTime then SyncResult.timedOut
    else
      match r with
      | Except.error e => SyncResult.sdkError e
      | Except.ok pos =>
        match convergedCheck pos target with
        | none => SyncResult.lookupError
        | some true => SyncResult.synchronized
        | some false => runSync target startTime rest

/-- Lines 86-87: `if elapsed < loop_time: time.sleep(loop_time -
elapsed)`. `some d` means `time.sleep(d)` was invoked; `none` means no
sleep call was made in that iteration. -/
def iterationSleep (elapsed : ℚ) : Option ℚ :=
  if elapsed < loop_time then some (loop_time - elapsed) else none

/-- One observed iteration of the teleoperation loop (lines 77-87):
either the external interrupt arrives, an SDK read/write raises, or the
iteration completes with a measured elapsed time. -/
inductive TeleopEvent where
  | interrupt
  | readError (msg : String)
  | writeError (msg : String)
  | step (elapsed : ℚ)
deriving DecidableEq, Repr

/-- How a run of the whole script ends. -/
inductive Outcome where
  | portDiscoveryError (found : Nat) (ports : List String)
  | discoveryCallError (msg : String)
  | uncaughtError (msg : String)
  | stopped
  | running
  | outOfPolls
deriving DecidableEq, Repr

/-- Lines 76-90: the teleoperation loop. Returns the list of sleep calls
made (one entry per completed iteration) and how the loop ended:
`stopped` when `KeyboardInterrupt` is caught, `uncaughtError` when an
SDK call raises, `running` when the supplied observations are exhausted
with the loop still going (the loop itself is unbounded). -/
def runTeleop : List TeleopEvent → List (Option ℚ) × Outcome
  | [] => ([], Outcome.running)
  | TeleopEvent.interrupt :: _ => ([], Outcome.stopped)
  | TeleopEvent.readError e :: _ => ([], Outcome.uncaughtError e)
  | TeleopEvent.writeError e :: _ => ([], Outcome.uncaughtError e)
  | TeleopEvent.step elapsed :: rest =>
    let r := runTeleop rest
    (iterationSleep elapsed :: r.1, r.2)

/-- Observable result of a run of `main`: printed lines, the
`(handle, servo id)` pairs passed to `read_voltage`, how many handles
were successfully opened, which phases were entered, and the outcome. -/
structure RunResult where
  output : List OutputLine
  voltageReads : List (Nat × Nat)
  handlesOpened : Nat
  enteredSync : Bool
  enteredTeleop : Bool
  outcome : Outcome
deriving DecidableEq, Repr

/-- Environment: the outcomes of every external call `main` makes, in
program order. `readVoltage h id` is the result of `read_voltage(id)` on
handle `h` (1 or 2). `servoIds` generalizes the `SERVO_IDS` constant so
that statements can quantify over the configured id list. -/
structure Env where
  servoIds : List Nat
  findPorts : Except String (List String)
  open1 : Except String Unit
  open2 : Except String Unit
  readVoltage : Nat → Nat → Except String ℚ
  calibration : Except String Unit
  initialRead : Except String JointPositions
  initialWrite : Except String Unit
  startTime : ℚ
  syncPolls : List (ℚ × Except String JointPositions)
  teleopEvents : List TeleopEvent

/-- Lines 73-90: entering the teleoperation phase — print the start
banner, run the loop, and print the shutdown message when the interrupt
is caught. -/
def teleopPhase (events : List TeleopEvent) (accOut : List OutputLine)
    (reads : List (Nat × Nat)) : RunResult :=
  let r := runTeleop events
  { output := accOut ++ [OutputLine.teleopStarted] ++
      (if r.2 = Outcome.stopped then [OutputLine.stoppedMsg] else []),
    voltageReads := reads, handlesOpened := 2,
    enteredSync := true, enteredTeleop := true, outcome := r.2 }

/-- Lines 53-71: the synchronization phase — calibrate the follower,
read the leader's initial positions, command the follower there, then
poll for convergence. SDK errors here are not caught by the script, so
they surface as `uncaughtError`; a timeout only prints a warning and
falls through to the teleoperation phase. -/
def syncPhase (env : Env) (accOut : List OutputLine)
    (reads : List (Nat × Nat)) : RunResult :=
  match env.calibration with
  | Except.error e =>
    { output := accOut, voltageReads := reads, handlesOpened := 2,
      enteredSync := true, enteredTeleop := false,
      outcome := Outcome.uncaughtError e }
  | Except.ok _ =>
    let out1 := accOut ++ [OutputLine.movingMsg]
    match env.initialRead with
    | Except.error e =>
      { output := out1, voltageReads := reads, handlesOpened := 2,
        enteredSync := true, enteredTeleop := false,
        outcome := Outcome.uncaughtError e }
    | Except.ok target =>
      match env.initialWrite with
      | Except.error e =>
        { output := out1, voltageReads := reads, handlesOpened := 2,
          enteredSync := true, enteredTeleop := false,
          outcome := Outcome.uncaughtError e }
      | Except.ok _ =>
        match runSync target env.startTime env.syncPolls with
        | SyncResult.timedOut =>
          teleopPhase env.teleopEvents
            (out1 ++ [OutputLine.syncTimeoutWarning]) reads
        | SyncResult.synchronized =>
          teleopPhase env.teleopEvents (out1 ++ [OutputLine.syncDone]) reads
        | SyncResult.sdkError e =>
          { output := out1, voltageReads := reads, handlesOpened := 2,
            enteredSync := true, enteredTeleop := false,
            outcome := Outcome.uncaughtError e }
        | SyncResult.lookupError =>
          { output := out1, voltageReads := reads, handlesOpened := 2,
            enteredSync := true, enteredTeleop := false,
            outcome := Outcome.uncaughtError "KeyError" }
        | SyncResult.pollsExhausted =>
          { output := out1, voltageReads := reads, handlesOpened := 2,
            enteredSync := true, enteredTeleop := false,
            outcome := Outcome.outOfPolls }

/-- Lines 40-51: read the two classification voltages — handle 1 from
`servoIds[0]`, handle 2 from `servoIds[1]` — classify, print the role
lines, and continue into the synchronization phase. Index or read
failures propagate uncaught. -/
def resolvePhase (env : Env) (p0 p1 : String)
    (accOut : List OutputLine) : RunResult :=
  match env.servoIds[0]? with
  | none =>
    { output := accOut, voltageReads := [], handlesOpened := 2,
      enteredSync := false, enteredTeleop := false,
      outcome := Outcome.uncaughtError "IndexError" }
  | some id0 =>
    match env.readVoltage 1 id0 with
    | Except.error e =>
      { output := accOut, voltageReads := [(1, id0)], handlesOpened := 2,
        enteredSync := false, enteredTeleop := false,
        outcome := Outcome.uncaughtError e }
    | Except.ok v1 =>
      match env.servoIds[1]? with
      | none =>
        { output := accOut, voltageReads := [(1, id0)], handlesOpened := 2,
          enteredSync := false, enteredTeleop := false,
          outcome := Outcome.uncaughtError "IndexError" }
      | some id1 =>
        match env.readVoltage 2 id1 with
        | Except.error e =>
          { output := accOut, voltageReads := [(1, id0), (2, id1)],
            handlesOpened := 2, enteredSync := false,
            enteredTeleop := false, outcome := Outcome.uncaughtError e }
        | Except.ok v2 =>
          let c := classifyAndReport p0 p1 v1 v2
          syncPhase env (accOut ++ c.2) [(1, id0), (2, id1)]

/-- Lines 35-38: construct the two `ServoController` handles. A
construction/enter failure propagates uncaught. -/
def openPhase (env : Env) (p0 p1 : String) : RunResult :=
  let accOut := [OutputLine.foundPorts p0 p1]
  match env.open1 with
  | Except.error e =>
    { output := accOut, voltageReads := [], handlesOpened := 0,
      enteredSync := false, enteredTeleop := false,
      outcome := Outcome.uncaughtError e }
  | Except.ok _ =>
    match env.open2 with
    | Except.error e =>
      { output := accOut, voltageReads := [], handlesOpened := 1,
        enteredSync := false, enteredTeleop := false,
        outcome := Outcome.uncaughtError e }
    | Except.ok _ => resolvePhase env p0 p1 accOut

/-- Lines 21-90: the whole `main`. Discovery errors are caught and
reported (lines 28-30); fewer than two ports prints the count and the
available ports and returns (lines 23-27); otherwise the open, resolve,
synchronization and teleoperation phases run in order. -/
def runMain (env : Env) : RunResult :=
  match env.findPorts with
  | Except.error e =>
    { output := [OutputLine.findPortsError e], voltageReads := [],
      handlesOpened := 0, enteredSync := false, enteredTeleop := false,
      outcome := Outcome.discoveryCallError e }
  | Except.ok ports =>
    match ports with
    | p0 :: p1 :: _ => openPhase env p0 p1
    | _ =>
      { output := OutputLine.portCountError ports.length ::
          (if ports.isEmpty then [] else [OutputLine.availablePorts ports]),
        voltageReads := [], handlesOpened := 0, enteredSync := false,
        enteredTeleop := false,
        outcome := Outcome.portDiscoveryError ports.length ports }

/-- A nominal environment: two ports found, all SDK calls succeed, the
follower converges on the first poll, and the operator interrupts after
one teleoperation iteration. -/
def baseEnv : Env :=
  { servoIds := SERVO_IDS,
    findPorts := Except.ok ["/dev/ttyUSB0", "/dev/ttyUSB1"],
    open1 := Except.ok (),
    open2 := Except.ok (),
    readVoltage := fun _ _ => Except.ok 5,
    calibration := Except.ok (),
    initialRead := Except.ok [(1, 1000)],
    initialWrite := Except.ok (),
    startTime := 0,
    syncPolls := [(1, Except.ok [(1, 1005)])],
    teleopEvents := [TeleopEvent.step (1/400), TeleopEvent.interrupt] }

/-- Environment where discovery finds only one port. -/
def onePortEnv : Env := { baseEnv with findPorts := Except.ok ["/dev/ttyUSB0"] }

/-- Environment where the synchronization poll clock has already passed
the 5-second timeout at the first poll. -/
def timeoutEnv : Env := { baseEnv with syncPolls := [(6, Except.ok [(1, 2000)])] }

/-- Environment where every `read_voltage` call raises. -/
def voltageFailEnv : Env :=
  { baseEnv with readVoltage := fun _ _ => Except.error "read_voltage failed" }

/-- Environment where the discovery call itself raises. -/
def discoveryFailEnv : Env := { baseEnv with findPorts := Except.error "no serial ports" }

/-- The diff list of line 68 is defined (no `KeyError`) exactly when
every follower-reported id is present in the leader's reading. -/
theorem computeDiffs_isSome (f t : JointPositions) :
    (computeDiffs f t).isSome = true ↔
      ∀ pr ∈ f, (lookupPos t pr.1).isSome = true := by
  induction f with
  | nil => simp [computeDiffs]
  | cons hd rest ih =>
    obtain ⟨id, p⟩ := hd
    cases hx : lookupPos t id with
    | none =>
      simp only [computeDiffs, hx, Option.isSome_none, Bool.false_eq_true, false_iff]
      intro hcon
      have h1 := hcon (id, p) (List.mem_cons_self _ _)
      rw [hx] at h1
      simp at h1
    | some x =>
      cases hds : computeDiffs rest t with
      | none =>
        simp only [computeDiffs, hx, hds, Option.isSome_none, Bool.false_eq_true,
          false_iff]
        intro hcon
        have h2 := ih.mpr (fun pr hpr => hcon pr (List.mem_cons_of_mem _ hpr))
        rw [hds] at h2
        simp at h2
      | some ds =>
        simp only [computeDiffs, hx, hds, Option.isSome_some, true_iff]
        rw [List.forall_mem_cons]
        exact ⟨by simp [hx], ih.mp (by simp [hds])⟩

/-- The convergence test of line 69 returns `true` exactly when every
follower joint is within tolerance of the target, provided every
follower id is present in the target reading. -/
theorem convergedCheck_true_iff (f t : JointPositions) :
    (∀ pr ∈ f, (lookupPos t pr.1).isSome = true) →
    (convergedCheck f t = some true ↔
      ∀ pr ∈ f, ∀ x, lookupPos t pr.1 = some x → |pr.2 - x| ≤ TOLERANCE) := by
  induction f with
  | nil => intro h; simp [convergedCheck, computeDiffs]
  | cons hd rest ih =>
    intro h
    obtain ⟨id, p⟩ := hd
    have hx0 : (lookupPos t id).isSome = true := h (id, p) (List.mem_cons_self _ _)
    obtain ⟨x, hx⟩ := Option.isSome_iff_exists.mp hx0
    have hrest : ∀ pr ∈ rest, (lookupPos t pr.1).isSome = true :=
      fun pr hpr => h pr (List.mem_cons_of_mem _ hpr)
    have hds0 : (computeDiffs rest t).isSome = true :=
      (computeDiffs_isSome rest t).mpr hrest
    obtain ⟨ds, hds⟩ := Option.isSome_iff_exists.mp hds0
    have hrec : convergedCheck rest t =
        some (!ds.any fun d => decide (TOLERANCE < d)) := by
      simp [convergedCheck, hds]
    have hcons : convergedCheck ((id, p) :: rest) t =
        some (!(decide (TOLERANCE < |p - x|) ||
          ds.any fun d => decide (TOLERANCE < d))) := by
      simp [convergedCheck, computeDiffs, hx, hds, List.any_cons]
    rw [hcons]
    constructor
    · intro hall
      simp only [Option.some.injEq, Bool.not_eq_true', Bool.or_eq_false_iff,
        decide_eq_false_iff_not, not_lt] at hall
      intro pr hpr y hy
      rcases List.mem_cons.mp hpr with heq | hmem
      · subst heq
        obtain rfl := Option.some.inj (hx.symm.trans hy)
        exact hall.1
      · have h3 : convergedCheck rest t = some true := by
          rw [hrec]
          simp [hall.2]
        exact (ih hrest).mp h3 pr hmem y hy
    · intro hall
      simp only [Option.some.injEq, Bool.not_eq_true', Bool.or_eq_false_iff,
        decide_eq_false_iff_not, not_lt]
      constructor
      · exact hall (id, p) (List.mem_cons_self _ _) x hx
      · have h4 : convergedCheck rest t = some true :=
          (ih hrest).mpr (fun pr hpr y hy => hall pr (List.mem_cons_of_mem _ hpr) y hy)
        rw [hrec] at h4
        simpa using h4

/-- C1: for every pair of sampled voltages, handle 1 is Leader and
handle 2 Follower when `v1 < VOLTAGE_THRESHOLD`, the assignment is
reversed when `v1 ≥ VOLTAGE_THRESHOLD`, and the two handles always hold
distinct roles, so exactly one handle holds each role. -/
theorem role_classification (p0 p1 : String) (v1 v2 : ℚ) :
    (v1 < VOLTAGE_THRESHOLD →
      (classifyAndReport p0 p1 v1 v2).1 = (Role.Leader, Role.Follower)) ∧
    (VOLTAGE_THRESHOLD ≤ v1 →
      (classifyAndReport p0 p1 v1 v2).1 = (Role.Follower, Role.Leader)) ∧
    (classifyAndReport p0 p1 v1 v2).1.1 ≠ (classifyAndReport p0 p1 v1 v2).1.2 := by
  by_cases hv : v1 < VOLTAGE_THRESHOLD
  · refine ⟨fun _ => by simp [classifyAndReport, hv],
      fun hle => absurd hv (not_lt.mpr hle), ?_⟩
    simp [classifyAndReport, hv]
  · refine ⟨fun hlt => absurd hlt hv,
      fun _ => by simp [classifyAndReport, hv], ?_⟩
    simp [classifyAndReport, hv]

/-- Witness for C1 at the spec's example voltages 5 V and 12 V. -/
theorem role_classification_witness :
    (classifyAndReport "/dev/ttyUSB0" "/dev/ttyUSB1" 5 12).1 =
      (Role.Leader, Role.Follower) :=
  (role_classification "/dev/ttyUSB0" "/dev/ttyUSB1" 5 12).1 (by decide)

/-- C2: provided every follower-reported id is present in the target
reading, the check of lines 68-69 declares convergence exactly when
every follower joint is within `TOLERANCE` of the target, and any single
joint farther than `TOLERANCE` away blocks the declaration. -/
theorem convergence_predicate (f t : JointPositions)
    (h : ∀ pr ∈ f, (lookupPos t pr.1).isSome = true) :
    (convergedCheck f t = some true ↔
      ∀ pr ∈ f, ∀ x, lookupPos t pr.1 = some x → |pr.2 - x| ≤ TOLERANCE) ∧
    (∀ pr ∈ f, ∀ x, lookupPos t pr.1 = some x → TOLERANCE < |pr.2 - x| →
      convergedCheck f t ≠ some true) := by
  refine ⟨convergedCheck_true_iff f t h, ?_⟩
  intro pr hpr x hx hgt hconv
  have hle := (convergedCheck_true_iff f t h).mp hconv pr hpr x hx
  exact absurd hle (not_le.mpr hgt)

/-- Witness for C2 on a two-joint reading within tolerance. -/
theorem convergence_predicate_witness :
    convergedCheck [(1, 100), (2, 50)] [(1, 110), (2, 45)] = some true :=
  ((convergence_predicate [(1, 100), (2, 50)] [(1, 110), (2, 45)]
    (by decide)).1).mpr (by decide)

/-- C3: in each teleoperation iteration, a measured duration of at least
the nominal period causes no sleep call, while a shorter duration sleeps
exactly the (positive) remainder; and the loop records exactly one such
sleep decision per completed iteration. -/
theorem teleop_pacing (elapsed : ℚ) (rest : List TeleopEvent) :
    (loop_time ≤ elapsed → iterationSleep elapsed = none) ∧
    (elapsed < loop_time →
      iterationSleep elapsed = some (loop_time - elapsed) ∧
      0 < loop_time - elapsed) ∧
    (runTeleop (TeleopEvent.step elapsed :: rest)).1 =
      iterationSleep elapsed :: (runTeleop rest).1 := by
  refine ⟨fun hge => ?_, fun hlt => ⟨?_, ?_⟩, ?_⟩
  · simp [iterationSleep, not_lt.mpr hge]
  · simp [iterationSleep, hlt]
  · linarith
  · simp [runTeleop]

/-- Witness for C3: an iteration of exactly the nominal period makes no
sleep call, and one of half the period sleeps the remaining half. -/
theorem teleop_pacing_witness :
    iterationSleep (1/200) = none ∧
    (iterationSleep (1/400) = some (loop_time - 1/400) ∧
      0 < loop_time - 1/400) :=
  ⟨(teleop_pacing (1/200) []).1 (by norm_num [loop_time, FREQUENCY]),
   (teleop_pacing (1/400) []).2.1 (by norm_num [loop_time, FREQUENCY])⟩

/-- C9: the role assignment computed from the two sampled voltages is
identical for any two runs that agree on the first voltage, whatever the
second voltage is; `v2` can only influence the printed lines. -/
theorem classification_ignores_second_voltage (p0 p1 : String)
    (v1 v2 v2' : ℚ) :
    (classifyAndReport p0 p1 v1 v2).1 = (classifyAndReport p0 p1 v1 v2').1 := by
  by_cases hv : v1 < VOLTAGE_THRESHOLD <;> simp [classifyAndReport, hv]

/-- C10: the diff computation of line 68 is well-defined exactly when
the follower reading's key set is contained in the target reading's key
set, and a poll whose reading breaks this containment makes the
synchronization loop fail with a lookup error instead of skipping the
non-common id. -/
theorem convergence_lookup_totality (f t : JointPositions) :
    ((computeDiffs f t).isSome = true ↔
      ∀ pr ∈ f, (lookupPos t pr.1).isSome = true) ∧
    (∀ (tp start : ℚ) (rest : List (ℚ × Except String JointPositions)),
      ¬ SYNC_TIMEOUT < tp - start → computeDiffs f t = none →
      runSync t start ((tp, Except.ok f) :: rest) = SyncResult.lookupError) := by
  refine ⟨computeDiffs_isSome f t, ?_⟩
  intro tp start rest hto hnone
  simp [runSync, hto, convergedCheck, hnone]

/-- Witness for C10: a follower reading reporting id 1 against an empty
target reading aborts the poll with a lookup error. -/
theorem convergence_lookup_totality_witness :
    runSync [] 0 [(0, Except.ok [(1, 100)])] = SyncResult.lookupError :=
  (convergence_lookup_totality [(1, 100)] []).2 0 0 []
    (by norm_num [SYNC_TIMEOUT]) (by decide)

/-- The teleoperation phase never adds voltage reads. -/
theorem teleopPhase_voltageReads (ev : List TeleopEvent)
    (accOut : List OutputLine) (reads : List (Nat × Nat)) :
    (teleopPhase ev accOut reads).voltageReads = reads := rfl

/-- The synchronization phase never adds voltage reads. -/
theorem syncPhase_voltageReads (env : Env) (accOut : List OutputLine)
    (reads : List (Nat × Nat)) :
    (syncPhase env accOut reads).voltageReads = reads := by
  unfold syncPhase
  rcases env.calibration with e | u
  · rfl
  · dsimp only
    rcases env.initialRead with e | target
    · rfl
    · dsimp only
      rcases env.initialWrite with e | u2
      · rfl
      · dsimp only
        rcases runSync target env.startTime env.syncPolls <;> rfl

/-- C4: whenever discovery returns fewer than two ports, the run ends in
the port-discovery error reporting the count and the list of found
ports, the error line (and, when nonempty, the available-ports line) is
printed, no handle is opened, and neither the synchronization nor the
teleoperation phase is entered. -/
theorem discovery_too_few_ports (env : Env) (ports : List String)
    (hports : env.findPorts = Except.ok ports) (hlt : ports.length < 2) :
    (runMain env).outcome = Outcome.portDiscoveryError ports.length ports ∧
    (runMain env).handlesOpened = 0 ∧
    (runMain env).enteredSync = false ∧
    (runMain env).enteredTeleop = false ∧
    OutputLine.portCountError ports.length ∈ (runMain env).output ∧
    (ports ≠ [] → OutputLine.availablePorts ports ∈ (runMain env).output) := by
  rcases ports with _ | ⟨p, _ | ⟨q, rest⟩⟩
  · simp [runMain, hports]
  · simp [runMain, hports]
  · exact absurd hlt (by simp)

/-- Witness for C4: a single discovered port aborts with the report. -/
theorem discovery_too_few_ports_witness :
    (runMain onePortEnv).outcome =
      Outcome.portDiscoveryError 1 ["/dev/ttyUSB0"] ∧
    (runMain onePortEnv).handlesOpened = 0 ∧
    (runMain onePortEnv).enteredSync = false ∧
    (runMain onePortEnv).enteredTeleop = false ∧
    OutputLine.portCountError 1 ∈ (runMain onePortEnv).output ∧
    (["/dev/ttyUSB0"] ≠ ([] : List String) →
      OutputLine.availablePorts ["/dev/ttyUSB0"] ∈ (runMain onePortEnv).output) :=
  discovery_too_few_ports onePortEnv ["/dev/ttyUSB0"] rfl (by decide)

/-- C6: for every configured id list with at least two ids, the first
handle's classification voltage is requested for the first id in the
list and the second handle's for the second id, and these are the only
two voltage reads of the run. -/
theorem fixed_reference_ids (env : Env) (p0 p1 : String) (rest : List String)
    (a b : Nat) (ids : List Nat) (w1 w2 : ℚ)
    (hports : env.findPorts = Except.ok (p0 :: p1 :: rest))
    (hids : env.servoIds = a :: b :: ids)
    (h1 : env.open1 = Except.ok ())
    (h2 : env.open2 = Except.ok ())
    (hv1 : env.readVoltage 1 a = Except.ok w1)
    (hv2 : env.readVoltage 2 b = Except.ok w2) :
    (runMain env).voltageReads = [(1, a), (2, b)] := by
  simp [runMain, hports, openPhase, h1, h2, resolvePhase, hids, hv1, hv2,
    syncPhase_voltageReads]

/-- Witness for C6 on the nominal environment with `SERVO_IDS`. -/
theorem fixed_reference_ids_witness :
    (runMain baseEnv).voltageReads = [(1, 1), (2, 2)] :=
  fixed_reference_ids baseEnv "/dev/ttyUSB0" "/dev/ttyUSB1" [] 1 2
    [3, 4, 5, 6, 7] 5 5 rfl rfl rfl rfl rfl rfl

/-- C8: an interrupt arriving after any number of completed iterations
ends the teleoperation loop in the clean `stopped` state with the
shutdown message printed, while a run of completed iterations with no
interrupt leaves the loop still running (it never ends on its own). -/
theorem interrupt_handling (pre tail evs : List TeleopEvent)
    (accOut : List OutputLine) (reads : List (Nat × Nat))
    (hpre : ∀ ev ∈ pre, ∃ q, ev = TeleopEvent.step q)
    (hevs : ∀ ev ∈ evs, ∃ q, ev = TeleopEvent.step q) :
    (runTeleop (pre ++ TeleopEvent.interrupt :: tail)).2 = Outcome.stopped ∧
    OutputLine.stoppedMsg ∈
      (teleopPhase (pre ++ TeleopEvent.interrupt :: tail) accOut reads).output ∧
    (teleopPhase (pre ++ TeleopEvent.interrupt :: tail) accOut reads).outcome =
      Outcome.stopped ∧
    (runTeleop evs).2 = Outcome.running := by
  have key : ∀ l : List TeleopEvent, (∀ ev ∈ l, ∃ q, ev = TeleopEvent.step q) →
      ∀ t2 : List TeleopEvent, (runTeleop (l ++ t2)).2 = (runTeleop t2).2 := by
    intro l hl
    induction l with
    | nil => intro t2; rfl
    | cons hd rest ih =>
      intro t2
      obtain ⟨q, hq⟩ := hl hd (List.mem_cons_self _ _)
      subst hq
      simpa [runTeleop] using
        ih (fun ev h => hl ev (List.mem_cons_of_mem _ h)) t2
  have hstop : (runTeleop (pre ++ TeleopEvent.interrupt :: tail)).2 =
      Outcome.stopped := key pre hpre (TeleopEvent.interrupt :: tail)
  have hrun : (runTeleop evs).2 = Outcome.running := by
    have h0 := key evs hevs []
    rwa [List.append_nil] at h0
  refine ⟨hstop, ?_, ?_, hrun⟩
  · simp [teleopPhase, hstop]
  · simp [teleopPhase, hstop]

/-- Witness for C8: interrupt after one iteration stops cleanly; one
uninterrupted iteration leaves the loop running. -/
theorem interrupt_handling_witness :
    (runTeleop [TeleopEvent.step (1/400), TeleopEvent.interrupt]).2 =
      Outcome.stopped ∧
    OutputLine.stoppedMsg ∈
      (teleopPhase [TeleopEvent.step (1/400), TeleopEvent.interrupt] [] []).output ∧
    (teleopPhase [TeleopEvent.step (1/400), TeleopEvent.interrupt] [] []).outcome =
      Outcome.stopped ∧
    (runTeleop [TeleopEvent.step (1/400)]).2 = Outcome.running :=
  interrupt_handling [TeleopEvent.step (1/400)] []
    [TeleopEvent.step (1/400)] [] []
    (fun ev h => ⟨1/400, List.mem_singleton.mp h⟩)
    (fun ev h => ⟨1/400, List.mem_singleton.mp h⟩)

/-- C5: when every phase before polling succeeds and the polling loop
times out, the run still enters the teleoperation phase: the timeout
warning is printed, `enteredTeleop` holds, and the final outcome is
whatever the teleoperation loop produces — the timeout itself never
aborts the program. -/
theorem sync_timeout_proceeds (env : Env) (p0 p1 : String)
    (rest : List String) (a b : Nat) (ids : List Nat) (w1 w2 : ℚ)
    (target : JointPositions)
    (hports : env.findPorts = Except.ok (p0 :: p1 :: rest))
    (hids : env.servoIds = a :: b :: ids)
    (h1 : env.open1 = Except.ok ())
    (h2 : env.open2 = Except.ok ())
    (hv1 : env.readVoltage 1 a = Except.ok w1)
    (hv2 : env.readVoltage 2 b = Except.ok w2)
    (hcal : env.calibration = Except.ok ())
    (hread : env.initialRead = Except.ok target)
    (hwrite : env.initialWrite = Except.ok ())
    (hsync : runSync target env.startTime env.syncPolls = SyncResult.timedOut) :
    (runMain env).enteredTeleop = true ∧
    OutputLine.syncTimeoutWarning ∈ (runMain env).output ∧
    (runMain env).outcome = (runTeleop env.teleopEvents).2 := by
  simp [runMain, hports, openPhase, h1, h2, resolvePhase, hids, hv1, hv2,
    syncPhase, hcal, hread, hwrite, hsync, teleopPhase]

/-- Witness for C5: the first poll arrives 6 seconds after start, the
loop times out, and the run still reaches teleoperation. -/
theorem sync_timeout_proceeds_witness :
    (runMain timeoutEnv).enteredTeleop = true ∧
    OutputLine.syncTimeoutWarning ∈ (runMain timeoutEnv).output ∧
    (runMain timeoutEnv).outcome = (runTeleop timeoutEnv.teleopEvents).2 :=
  sync_timeout_proceeds timeoutEnv "/dev/ttyUSB0" "/dev/ttyUSB1" [] 1 2
    [3, 4, 5, 6, 7] 5 5 [(1, 1000)] rfl rfl rfl rfl rfl rfl rfl rfl rfl
    (by norm_num [timeoutEnv, baseEnv, runSync, SYNC_TIMEOUT])

/-- C7 counterexample: it is not the case that every SDK error is
caught — in the environment where `read_voltage` raises, the run ends in
an uncaught propagated error. -/
theorem sdk_errors_not_all_contained :
    ¬ ∀ (env : Env) (m : String),
        (runMain env).outcome ≠ Outcome.uncaughtError m := by
  intro h
  exact h voltageFailEnv "read_voltage failed" rfl

/-- C7 amended: only the port-discovery error is caught and reported
(cleanly aborting the run); an error raised by handle opening, a voltage
read, calibration, the initial position read or write, a
synchronization-poll read, or a teleoperation-loop read/write propagates
as an uncaught error. -/
theorem sdk_error_propagation (env : Env) (e m : String) (p0 p1 : String)
    (rest : List String) (a b : Nat) (ids : List Nat) (w1 w2 : ℚ)
    (target : JointPositions) :
    (env.findPorts = Except.error e →
      (runMain env).outcome = Outcome.discoveryCallError e ∧
      OutputLine.findPortsError e ∈ (runMain env).output ∧
      (runMain env).handlesOpened = 0) ∧
    (env.findPorts = Except.ok (p0 :: p1 :: rest) →
      env.open1 = Except.error e →
      (runMain env).outcome = Outcome.uncaughtError e) ∧
    (env.findPorts = Except.ok (p0 :: p1 :: rest) →
      env.open1 = Except.ok () → env.open2 = Except.error e →
      (runMain env).outcome = Outcome.uncaughtError e) ∧
    (env.findPorts = Except.ok (p0 :: p1 :: rest) →
      env.open1 = Except.ok () → env.open2 = Except.ok () →
      env.servoIds = a :: b :: ids →
      env.readVoltage 1 a = Except.error e →
      (runMain env).outcome = Outcome.uncaughtError e) ∧
    (env.findPorts = Except.ok (p0 :: p1 :: rest) →
      env.open1 = Except.ok () → env.open2 = Except.ok () →
      env.servoIds = a :: b :: ids →
      env.readVoltage 1 a = Except.ok w1 →
      env.readVoltage 2 b = Except.error e →
      (runMain env).outcome = Outcome.uncaughtError e) ∧
    (env.findPorts = Except.ok (p0 :: p1 :: rest) →
      env.open1 = Except.ok () → env.open2 = Except.ok () →
      env.servoIds = a :: b :: ids →
      env.readVoltage 1 a = Except.ok w1 →
      env.readVoltage 2 b = Except.ok w2 →
      env.calibration = Except.error e →
      (runMain env).outcome = Outcome.uncaughtError e) ∧
    (env.findPorts = Except.ok (p0 :: p1 :: rest) →
      env.open1 = Except.ok () → env.open2 = Except.ok () →
      env.servoIds = a :: b :: ids →
      env.readVoltage 1 a = Except.ok w1 →
      env.readVoltage 2 b = Except.ok w2 →
      env.calibration = Except.ok () →
      env.initialRead = Except.error e →
      (runMain env).outcome = Outcome.uncaughtError e) ∧
    (env.findPorts = Except.ok (p0 :: p1 :: rest) →
      env.open1 = Except.ok () → env.open2 = Except.ok () →
      env.servoIds = a :: b :: ids →
      env.readVoltage 1 a = Except.ok w1 →
      env.readVoltage 2 b = Except.ok w2 →
      env.calibration = Except.ok () →
      env.initialRead = Except.ok target →
      env.initialWrite = Except.error e →
      (runMain env).outcome = Outcome.uncaughtError e) ∧
    (env.findPorts = Except.ok (p0 :: p1 :: rest) →
      env.open1 = Except.ok () → env.open2 = Except.ok () →
      env.servoIds = a :: b :: ids →
      env.readVoltage 1 a = Except.ok w1 →
      env.readVoltage 2 b = Except.ok w2 →
      env.calibration = Except.ok () →
      env.initialRead = Except.ok target →
      env.initialWrite = Except.ok () →
      runSync target env.startTime env.syncPolls = SyncResult.sdkError e →
      (runMain env).outcome = Outcome.uncaughtError e) ∧
    (env.findPorts = Except.ok (p0 :: p1 :: rest) →
      env.open1 = Except.ok () → env.open2 = Except.ok () →
      env.servoIds = a :: b :: ids →
      env.readVoltage 1 a = Except.ok w1 →
      env.readVoltage 2 b = Except.ok w2 →
      env.calibration = Except.ok () →
      env.initialRead = Except.ok target →
      env.initialWrite = Except.ok () →
      runSync target env.startTime env.syncPolls = SyncResult.synchronized →
      (runTeleop env.teleopEvents).2 = Outcome.uncaughtError m →
      (runMain env).outcome = Outcome.uncaughtError m) := by
  refine ⟨?_, ?_, ?_, ?_, ?_, ?_, ?_, ?_, ?_, ?_⟩
  · intro hfp
    simp [runMain, hfp]
  · intro hfp ho1
    simp [runMain, hfp, openPhase, ho1]
  · intro hfp ho1 ho2
    simp [runMain, hfp, openPhase, ho1, ho2]
  · intro hfp ho1 ho2 hids hv1
    simp [runMain, hfp, openPhase, ho1, ho2, resolvePhase, hids, hv1]
  · intro hfp ho1 ho2 hids hv1 hv2
    simp [runMain, hfp, openPhase, ho1, ho2, resolvePhase, hids, hv1, hv2]
  · intro hfp ho1 ho2 hids hv1 hv2 hcal
    simp [runMain, hfp, openPhase, ho1, ho2, resolvePhase, hids, hv1, hv2,
      syncPhase, hcal]
  · intro hfp ho1 ho2 hids hv1 hv2 hcal hread
    simp [runMain, hfp, openPhase, ho1, ho2, resolvePhase, hids, hv1, hv2,
      syncPhase, hcal, hread]
  · intro hfp ho1 ho2 hids hv1 hv2 hcal hread hwrite
    simp [runMain, hfp, openPhase, ho1, ho2, resolvePhase, hids, hv1, hv2,
      syncPhase, hcal, hread, hwrite]
  · intro hfp ho1 ho2 hids hv1 hv2 hcal hread hwrite hsync
    simp [runMain, hfp, openPhase, ho1, ho2, resolvePhase, hids, hv1, hv2,
      syncPhase, hcal, hread, hwrite, hsync]
  · intro hfp ho1 ho2 hids hv1 hv2 hcal hread hwrite hsync hloop
    simp [runMain, hfp, openPhase, ho1, ho2, resolvePhase, hids, hv1, hv2,
      syncPhase, hcal, hread, hwrite, hsync, teleopPhase, hloop]

/-- Witness for the amended C7: a failing voltage read propagates as an
uncaught error. -/
theorem sdk_error_propagation_witness :
    (runMain voltageFailEnv).outcome =
      Outcome.uncaughtError "read_voltage failed" :=
  (sdk_error_propagation voltageFailEnv "read_voltage failed" ""
    "/dev/ttyUSB0" "/dev/ttyUSB1" [] 1 2 [3, 4, 5, 6, 7] 0 0
    []).2.2.2.1 rfl rfl rfl rfl rfl
